import Mathlib

/-!
Verification of the buffer / spatial-join / aggregation pipeline of
`analysis.py` (rmkenv/dollargeneral).

The script's `main` function is embedded shallowly, stage by stage:

* remote download of the income polygons (lines 35-55),
* CRS defaulting for the store layer (lines 58-60),
* construction of the buffer frame and column bookkeeping (lines 66-75,
  110-123),
* income-field selection on the joined table (lines 81-94),
* per-buffer aggregation, count filter, left merge, fillna and the
  high-income threshold filter (lines 96-107).

Numeric attribute values are modelled as `Option ℚ`: a `none` is a pandas
NaN / null attribute value; `agg(['mean','count'])` averages and counts the
non-null values of the group, matching pandas semantics.  Pandas frames are
modelled as lists of rows; the pandas index label of a row is carried
explicitly as an `id`/`idx` field.
-/

namespace DollarGeneral

/-! ## Remote download of income polygons (analysis.py lines 35-55)

The script issues exactly one HTTP GET against the ArcGIS REST endpoint,
with a fixed parameter dictionary and no paging loop: there is no
`resultOffset` or `resultRecordCount` parameter and no second request.  The
single response's `features` array is turned into a GeoDataFrame which is
then CRS-tagged EPSG:4326 (lines 54-55). -/

/-- Parameter dictionary of the one ArcGIS request (lines 36-41). -/
def arcgisParams : List (String × String) :=
  [("where", "1=1"), ("outFields", "*"), ("f", "geojson"), ("returnGeometry", "true")]

/-- The complete sequence of HTTP requests issued by the download step
(lines 44-51): a single request with `arcgisParams`. -/
def downloadRequests : List (List (String × String)) := [arcgisParams]

/-- The `resultOffset` value carried by each issued request, if any. -/
def requestOffsets : List (Option String) :=
  downloadRequests.map (fun ps => (ps.find? (fun kv => kv.1 = "resultOffset")).map (·.2))

/-- A geometry collection reduced to the facts the CRS claims need:
row count and CRS tag (an EPSG code, `none` = untagged). -/
structure GeoFrame where
  nrows : Nat
  crs : Option Nat
deriving DecidableEq

/-- Lines 53-55: the single response's feature list becomes one
GeoDataFrame which is then tagged EPSG:4326 in place. -/
def loadIncome (nFeatures : Nat) : GeoFrame :=
  { nrows := nFeatures, crs := some 4326 }

/-! ## CRS defaulting for the store layer (lines 58-60)

`if gdf_stores.crs is None: gdf_stores.set_crs(epsg=4326, inplace=True)`. -/

/-- Lines 58-60: force-assign EPSG:4326 when the loaded store layer
carries no CRS tag, otherwise keep the tag. -/
def ensureStoresCrs (c : Option Nat) : Option Nat :=
  match c with
  | none => some 4326
  | some e => some e

/-! ## Geometry-column bookkeeping (lines 66-75, 100, 110-123)

Tracked per frame: the plain attribute columns, the columns holding
geometry objects, and the active geometry column. -/

/-- Column-level view of a (Geo)DataFrame. -/
structure ColFrame where
  attrCols : List String
  geomCols : List String
  active : String
deriving DecidableEq

/-- The store layer as loaded from the GeoPackage (line 32): caller-supplied
attribute columns plus the default active geometry column `geometry`. -/
def loadedStores (attrs : List String) : ColFrame :=
  { attrCols := attrs, geomCols := ["geometry"], active := "geometry" }

/-- `to_crs` transforms coordinates of the active geometry column only;
the column structure is unchanged (lines 63, 67, 110, 111). -/
def reprojectCols (f : ColFrame) : ColFrame := f

/-- Line 72: `gdf_stores_proj['buffer_3mi'] = ...buffer(...)` adds a second
geometry-valued column to the projected store frame. -/
def addBufferCol (f : ColFrame) : ColFrame :=
  { f with geomCols := f.geomCols ++ ["buffer_3mi"] }

/-- The projected store frame after buffering (lines 67-72). -/
def storesProj (attrs : List String) : ColFrame :=
  addBufferCol (reprojectCols (loadedStores attrs))

/-- `drop(columns=c)` removes column `c` wherever it lives. -/
def dropCol (f : ColFrame) (c : String) : ColFrame :=
  { f with attrCols := f.attrCols.erase c, geomCols := f.geomCols.erase c }

/-- `GeoDataFrame(..., geometry=g)` re-designates the active geometry. -/
def setGeometry (f : ColFrame) (g : String) : ColFrame :=
  { f with active := g }

/-- Line 75: the buffer frame is built from the projected store frame with
the point `geometry` column dropped and `buffer_3mi` active. -/
def buffersFrame (attrs : List String) : ColFrame :=
  setGeometry (dropCol (storesProj attrs) "geometry") "buffer_3mi"

/-- Line 100 (column view): the left merge appends the three statistics
columns of `avg_income` to the buffer frame. -/
def mergeStatsCols (f : ColFrame) : ColFrame :=
  { f with attrCols := f.attrCols ++ ["index_right", "avg_median_income_3mi", "tract_count"] }

/-- The high-income buffer layer handed to `add_data` at line 117: merge
result, filtered (no column change), reprojected to WGS84 (line 110). -/
def highIncomeWgs84 (attrs : List String) : ColFrame :=
  reprojectCols (mergeStatsCols (buffersFrame attrs))

/-- The store layer handed to `add_data` at line 122:
`gdf_stores_proj.to_crs(epsg=4326)` (line 111). -/
def storesWgs84 (attrs : List String) : ColFrame :=
  reprojectCols (storesProj attrs)

/-! ## Income-field selection (lines 81-94) -/

/-- Line 85: the prioritized candidate field names. -/
def possible_fields : List String :=
  ["B19053_001M", "B19053_001E", "MedianIncome", "MEDIAN_INCOME", "MedInc"]

/-- A column of the joined table: its name and whether pandas classifies
its dtype as numeric (`select_dtypes(include=['number'])`). -/
structure JoinedCol where
  name : String
  isNumeric : Bool
deriving DecidableEq

/-- Lines 84-94: try the candidates in order and keep the first one that
is a column of `joined`; otherwise fall back to the first numeric column,
defaulting to the literal `B19053_001M` when there is none.  The boolean
records whether the fallback branch ran, i.e. whether the
`print(f"Using field: ...")` selection report of line 94 was emitted. -/
def selectIncomeField (cols : List JoinedCol) : String × Bool :=
  match possible_fields.find? (fun f => cols.any (fun c => c.name = f)) with
  | some f => (f, false)
  | none =>
    let numeric_cols := (cols.filter (fun c => c.isNumeric)).map (fun c => c.name)
    (numeric_cols.headD "B19053_001M", true)

/-- The only failure the aggregation stage can raise: line 96 indexes the
joined table with the selected field name, a pandas `KeyError` when the
name is not a column. -/
inductive PipeErr where
  | keyError (field : String)
deriving DecidableEq

/-- Lines 84-96 as one step: select the income field, then check that the
`groupby(...)[income_field]` lookup of line 96 can succeed.  No other
error is raised between selection and aggregation. -/
def runAggregation (cols : List JoinedCol) : Except PipeErr (String × Bool) :=
  let fb := selectIncomeField cols
  if cols.any (fun c => c.name = fb.1) then Except.ok fb
  else Except.error (PipeErr.keyError fb.1)

/-! ## Aggregation, merge, fillna and threshold filter (lines 96-107) -/

/-- One row of the inner spatial join `joined` (line 78), reduced to what
lines 96-104 read: the buffer label `index_right` and the selected income
field's value (`none` = NaN). -/
structure JoinRow where
  bufferId : Nat
  value : Option ℚ
deriving DecidableEq

/-- One row of the buffer frame `gdf_buffers`: its pandas index label and
its buffer geometry (abstract token). -/
structure Buffer where
  id : Nat
  geom : Nat
deriving DecidableEq

/-- One row of `avg_income` after line 97's rename: `index_right`,
`avg_median_income_3mi` (NaN when the group holds no non-null value) and
`tract_count`. -/
structure StatRow where
  idx : Nat
  mean : Option ℚ
  count : Nat
deriving DecidableEq

/-- One row of the merged result of line 100 (and after line 103's
fillna): buffer label, geometry, `avg_median_income_3mi`, `tract_count`
(`none` = NaN). -/
structure BufferRow where
  id : Nat
  geom : Nat
  mean : Option ℚ
  count : Option Nat
deriving DecidableEq

/-- The group keys of `joined.groupby('index_right')`: the distinct
buffer labels occurring in the join rows. -/
def groupIds (ms : List JoinRow) : List Nat :=
  (ms.map (fun m => m.bufferId)).dedup

/-- The non-null income values of one group: pandas `mean` and `count`
both ignore NaN entries. -/
def nonNullVals (ms : List JoinRow) (i : Nat) : List ℚ :=
  (ms.filter (fun m => m.bufferId = i)).filterMap (fun m => m.value)

/-- The `avg_income` row of one group key (line 96): mean and count of the
group's non-null values; an all-null group has count 0 and NaN mean. -/
def statFor (ms : List JoinRow) (i : Nat) : StatRow :=
  let vs := nonNullVals ms i
  { idx := i
    mean := if vs.length = 0 then none else some (vs.sum / (vs.length : ℚ))
    count := vs.length }

/-- Line 96: `joined.groupby('index_right')[field].agg(['mean','count'])`,
one row per distinct `index_right` value. -/
def aggStats (ms : List JoinRow) : List StatRow :=
  (groupIds ms).map (statFor ms)

/-- Line 98: `avg_income = avg_income[avg_income['tract_count'] > 0]`. -/
def dropZeroCount (stats : List StatRow) : List StatRow :=
  stats.filter (fun s => 0 < s.count)

/-- The merge output rows contributed by one buffer row (line 100,
`how='left'`, left key = the buffer frame's index, right key =
`index_right`): one row per matching stat row, or a single row with NaN
statistics when no stat row matches. -/
def mergeRow (stats : List StatRow) (b : Buffer) : List BufferRow :=
  let hits := stats.filter (fun s => s.idx = b.id)
  if hits.isEmpty then [{ id := b.id, geom := b.geom, mean := none, count := none }]
  else hits.map (fun s => { id := b.id, geom := b.geom, mean := s.mean, count := some s.count })

/-- Line 100: `gdf_buffers.merge(avg_income, left_index=True,
right_on='index_right', how='left')`. -/
def mergeLeft (buffers : List Buffer) (stats : List StatRow) : List BufferRow :=
  buffers.flatMap (mergeRow stats)

/-- Line 103: `gdf_buffers['avg_median_income_3mi'].fillna(0)` — only the
mean column is filled; `tract_count` is left as it is. -/
def fillMean (r : BufferRow) : BufferRow :=
  { r with mean := some (r.mean.getD 0) }

/-- Lines 96-103 end to end: aggregate the join rows, drop zero-count
groups, left-merge onto the buffers and fill the missing means with 0. -/
def assemble (buffers : List Buffer) (ms : List JoinRow) : List BufferRow :=
  (mergeLeft buffers (dropZeroCount (aggStats ms))).map fillMean

/-- The boolean mask of line 104, `avg_median_income_3mi >= t`: a NaN mean
compares false in pandas. -/
def incomePred (t : ℚ) (r : BufferRow) : Bool :=
  match r.mean with
  | some m => decide (t ≤ m)
  | none => false

/-- Line 104: `gdf_buffers[gdf_buffers['avg_median_income_3mi'] >= t]`
with the script's threshold t = 100000 generalized to a parameter. -/
def filterThreshold (rows : List BufferRow) (t : ℚ) : List BufferRow :=
  rows.filter (incomePred t)

/-- Lines 103-104 as one step: the high-income selection together with the
unfiltered frame, both of which stay bound in the script
(`high_income_buffers` and `gdf_buffers`). -/
def filterStep (rows : List BufferRow) (t : ℚ) : List BufferRow × List BufferRow :=
  (filterThreshold rows t, rows)

end DollarGeneral

namespace DollarGeneral

/-! ## Helper lemmas -/

theorem statFor_idx (ms : List JoinRow) (i : Nat) : (statFor ms i).idx = i := rfl

theorem statFor_count (ms : List JoinRow) (i : Nat) :
    (statFor ms i).count = (nonNullVals ms i).length := rfl

theorem aggStats_map_idx (ms : List JoinRow) :
    (aggStats ms).map (fun s => s.idx) = groupIds ms := by
  unfold aggStats
  rw [List.map_map]
  have h : ((fun s : StatRow => s.idx) ∘ statFor ms) = id := by
    funext i; rfl
  rw [h, List.map_id]

theorem aggStats_keys_nodup (ms : List JoinRow) :
    ((aggStats ms).map (fun s => s.idx)).Nodup := by
  rw [aggStats_map_idx]
  exact List.nodup_dedup _

theorem groupIds_mem (ms : List JoinRow) (i : Nat) :
    i ∈ groupIds ms ↔ ∃ m ∈ ms, m.bufferId = i := by
  simp [groupIds, List.mem_dedup]

theorem mem_aggStats (ms : List JoinRow) (s : StatRow) (hs : s ∈ aggStats ms) :
    s.idx ∈ groupIds ms ∧ s = statFor ms s.idx := by
  unfold aggStats at hs
  obtain ⟨i, hi, hsi⟩ := List.mem_map.mp hs
  subst hsi
  rw [statFor_idx]
  exact ⟨hi, rfl⟩

theorem mem_nonNullVals_of_match (ms : List JoinRow) (m : JoinRow) (i : Nat)
    (hm : m ∈ ms) (hbid : m.bufferId = i) (hval : m.value.isSome = true) :
    m.value.get hval ∈ nonNullVals ms i := by
  unfold nonNullVals
  apply List.mem_filterMap.mpr
  refine ⟨m, List.mem_filter.mpr ⟨hm, by simp [hbid]⟩, ?_⟩
  exact (Option.some_get hval).symm

theorem statFor_count_pos (ms : List JoinRow) (i : Nat)
    (h : ∃ m ∈ ms, m.bufferId = i ∧ m.value.isSome = true) :
    1 ≤ (statFor ms i).count := by
  obtain ⟨m, hm, hbid, hval⟩ := h
  have hmem := mem_nonNullVals_of_match ms m i hm hbid hval
  have hne := List.ne_nil_of_mem hmem
  rw [statFor_count]
  exact Nat.succ_le_of_lt (List.length_pos.mpr hne)

theorem exists_match_of_count_pos (ms : List JoinRow) (i : Nat)
    (h : 0 < (statFor ms i).count) : ∃ m ∈ ms, m.bufferId = i := by
  rw [statFor_count] at h
  obtain ⟨v, hv⟩ := List.exists_mem_of_ne_nil _ (List.length_pos.mp h)
  obtain ⟨m, hm, _⟩ := List.mem_filterMap.mp hv
  have hmf := List.mem_filter.mp hm
  exact ⟨m, hmf.1, by simpa using hmf.2⟩

theorem filter_key_length_le_one (stats : List StatRow) (k : Nat)
    (h : (stats.map (fun s => s.idx)).Nodup) :
    (stats.filter (fun s => s.idx = k)).length ≤ 1 := by
  induction stats with
  | nil => simp
  | cons a l ih =>
    rw [List.map_cons, List.nodup_cons] at h
    by_cases hk : a.idx = k
    · rw [List.filter_cons_of_pos (by simp [hk])]
      have hnil : l.filter (fun s => decide (s.idx = k)) = [] := by
        rw [List.filter_eq_nil_iff]
        intro s hs
        simp only [decide_eq_true_eq]
        intro hsk
        exact h.1 (List.mem_map.mpr ⟨s, hs, by rw [hsk, hk]⟩)
      simp [hnil]
    · rw [List.filter_cons_of_neg (by simp [hk])]
      exact ih h.2

theorem mergeRow_length (stats : List StatRow) (b : Buffer)
    (h : (stats.map (fun s => s.idx)).Nodup) :
    (mergeRow stats b).length = 1 := by
  unfold mergeRow
  by_cases he : (stats.filter (fun s => s.idx = b.id)).isEmpty = true
  · rw [if_pos he]; rfl
  · rw [if_neg he, List.length_map]
    have h1 := filter_key_length_le_one stats b.id h
    have h2 : (stats.filter (fun s => s.idx = b.id)) ≠ [] := by
      simpa [List.isEmpty_iff] using he
    have h3 := List.length_pos.mpr h2
    omega

theorem mem_mergeRow (stats : List StatRow) (b : Buffer) (r : BufferRow)
    (hr : r ∈ mergeRow stats b) :
    r = { id := b.id, geom := b.geom, mean := none, count := none } ∨
    ∃ s ∈ stats, s.idx = b.id ∧
      r = { id := b.id, geom := b.geom, mean := s.mean, count := some s.count } := by
  unfold mergeRow at hr
  by_cases he : (stats.filter (fun s => s.idx = b.id)).isEmpty = true
  · rw [if_pos he] at hr
    exact Or.inl (List.mem_singleton.mp hr)
  · rw [if_neg he] at hr
    obtain ⟨s, hs, heq⟩ := List.mem_map.mp hr
    have hsf := List.mem_filter.mp hs
    exact Or.inr ⟨s, hsf.1, by simpa using hsf.2, heq.symm⟩

theorem mergeRow_id (stats : List StatRow) (b : Buffer) (r : BufferRow)
    (hr : r ∈ mergeRow stats b) : r.id = b.id := by
  rcases mem_mergeRow stats b r hr with h | ⟨s, _, _, h⟩ <;> rw [h]

theorem mergeLeft_map_id (buffers : List Buffer) (stats : List StatRow)
    (h : (stats.map (fun s => s.idx)).Nodup) :
    (mergeLeft buffers stats).map (fun r => r.id) = buffers.map (fun b => b.id) := by
  induction buffers with
  | nil => rfl
  | cons b bs ih =>
    show ((mergeRow stats b) ++ mergeLeft bs stats).map _ = _
    obtain ⟨r, hrow⟩ := List.length_eq_one.mp (mergeRow_length stats b h)
    have hmem : r ∈ mergeRow stats b := by rw [hrow]; exact List.mem_singleton_self r
    rw [List.map_append, ih, hrow, List.map_singleton, mergeRow_id stats b r hmem]
    rfl

theorem dropZero_keys_nodup (ms : List JoinRow) :
    ((dropZeroCount (aggStats ms)).map (fun s => s.idx)).Nodup := by
  have hsub : List.Sublist ((dropZeroCount (aggStats ms)).map (fun s => s.idx))
      ((aggStats ms).map (fun s => s.idx)) :=
    (List.filter_sublist _).map _
  exact (aggStats_keys_nodup ms).sublist hsub

theorem assemble_map_id (buffers : List Buffer) (ms : List JoinRow) :
    (assemble buffers ms).map (fun r => r.id) = buffers.map (fun b => b.id) := by
  unfold assemble
  rw [List.map_map]
  have h : ((fun r : BufferRow => r.id) ∘ fillMean) = (fun r : BufferRow => r.id) := by
    funext r; rfl
  rw [h]
  exact mergeLeft_map_id buffers _ (dropZero_keys_nodup ms)

theorem mem_assemble_decompose (buffers : List Buffer) (ms : List JoinRow)
    (r : BufferRow) (hr : r ∈ assemble buffers ms) :
    ∃ b ∈ buffers, ∃ q ∈ mergeRow (dropZeroCount (aggStats ms)) b, r = fillMean q := by
  unfold assemble mergeLeft at hr
  obtain ⟨q, hq, hfq⟩ := List.mem_map.mp hr
  obtain ⟨b, hb, hqb⟩ := List.mem_flatMap.mp hq
  exact ⟨b, hb, q, hqb, hfq.symm⟩

/-! ## Claim theorems -/

/-- C9: for every loaded point dataset whose source carries no CRS tag,
the pipeline force-assigns EPSG:4326 and proceeds; a missing CRS is never
an error and the CRS of the store layer is never left undefined. -/
theorem claim_crs_defaulting :
    ensureStoresCrs none = some 4326 ∧
    ∀ c, (ensureStoresCrs c).isSome = true := by
  refine ⟨rfl, fun c => ?_⟩
  cases c <;> rfl

/-- C8: the threshold filter is pure — it returns the surviving subset as
a distinct result while the unfiltered assembled collection stays exactly
as it was, and every surviving row is an unchanged row of the input. -/
theorem claim_filter_pure (buffers : List Buffer) (ms : List JoinRow) (t : ℚ) :
    (filterStep (assemble buffers ms) t).2 = assemble buffers ms ∧
    List.Sublist (filterStep (assemble buffers ms) t).1 (assemble buffers ms) ∧
    ∀ r ∈ (filterStep (assemble buffers ms) t).1, r ∈ assemble buffers ms :=
  ⟨rfl, List.filter_sublist _, fun _ hr => (List.mem_filter.mp hr).1⟩

/-- C7: threshold filtering is monotonic — whenever t1 ≤ t2, every
assembled buffer surviving the filter at t2 also survives it at t1. -/
theorem claim_filter_monotone (buffers : List Buffer) (ms : List JoinRow)
    (t1 t2 : ℚ) (h : t1 ≤ t2) (r : BufferRow)
    (hr : r ∈ filterThreshold (assemble buffers ms) t2) :
    r ∈ filterThreshold (assemble buffers ms) t1 := by
  rw [filterThreshold, List.mem_filter] at hr ⊢
  refine ⟨hr.1, ?_⟩
  have h2 := hr.2
  unfold incomePred at h2 ⊢
  cases hm : r.mean with
  | none => rw [hm] at h2; simp at h2
  | some m =>
    rw [hm] at h2
    simp only [decide_eq_true_eq] at h2 ⊢
    exact le_trans h h2

theorem claim_filter_monotone_witness :
    ({ id := 0, geom := 7, mean := some 0, count := none } : BufferRow) ∈
      filterThreshold (assemble [{ id := 0, geom := 7 }] []) (-1) :=
  claim_filter_monotone [{ id := 0, geom := 7 }] [] (-1) 0 (by decide) _ (by decide)

/-- C2: the aggregation-and-merge step is total over buffers — for every
buffer collection and every match relation the assembled result carries
each input buffer exactly once, in order, so it has exactly as many rows
as the buffer collection. -/
theorem claim_assemble_total (buffers : List Buffer) (ms : List JoinRow) :
    (assemble buffers ms).map (fun r => r.id) = buffers.map (fun b => b.id) ∧
    (assemble buffers ms).length = buffers.length := by
  refine ⟨assemble_map_id buffers ms, ?_⟩
  have h := congrArg List.length (assemble_map_id buffers ms)
  simpa using h

/-- C3 counterexample: the store layer handed to `add_data` at line 122
still carries two geometry-valued columns — the active point `geometry`
and the `buffer_3mi` polygons added at line 72 — so it is false that every
collection passed to the render sink exposes exactly one geometry
attribute. -/
theorem claim_stores_layer_two_geometries :
    (storesWgs84 ["USER_Store"]).geomCols = ["geometry", "buffer_3mi"] ∧
    ¬ (storesWgs84 ["USER_Store"]).geomCols.length = 1 := by
  refine ⟨rfl, by decide⟩

/-- C3 (amended): the high-income buffer layer passed to `add_data`
exposes exactly one geometry column (`buffer_3mi`; the point geometry was
dropped when the buffer frame was built at line 75), but the store-points
layer passed to `add_data` keeps two geometry columns — `geometry` and the
unpruned `buffer_3mi`. -/
theorem claim_layer_geometry_columns (attrs : List String) :
    (highIncomeWgs84 attrs).geomCols = ["buffer_3mi"] ∧
    (storesWgs84 attrs).geomCols = ["geometry", "buffer_3mi"] :=
  ⟨rfl, rfl⟩

/-- C4 counterexample: the polygon retrieval issues exactly one request
whose parameter dictionary has no `resultOffset` (and no
`resultRecordCount`), so there is no sequence of page requests in
increasing offset order and no short-page termination test. -/
theorem claim_download_no_paging :
    downloadRequests = [arcgisParams] ∧
    requestOffsets = [none] ∧
    ¬ ("resultOffset" ∈ arcgisParams.map (fun kv => kv.1)) ∧
    ¬ ("resultRecordCount" ∈ arcgisParams.map (fun kv => kv.1)) := by
  refine ⟨rfl, by decide, by decide, by decide⟩

/-- C4 (amended): the polygon retrieval issues a single unpaged request
for all records (`where=1=1`, `outFields=*`), with no offset and no
reliance on a total-count header; the single response is converted to one
collection which is then CRS-tagged EPSG:4326. -/
theorem claim_download_single_request :
    downloadRequests.length = 1 ∧
    requestOffsets = [none] ∧
    ∀ n, (loadIncome n).crs = some 4326 :=
  ⟨rfl, by decide, fun _ => rfl⟩

/-- C1 counterexample: for a single buffer and an empty match relation the
assembled result's `tract_count` column is NaN (`none`), not a defined 0 —
line 103 fills only `avg_median_income_3mi`. -/
theorem claim_zero_match_count_missing :
    (assemble [{ id := 0, geom := 7 }] []).map (fun r => r.count) = [none] ∧
    ¬ (assemble [{ id := 0, geom := 7 }] []).map (fun r => r.count) = [some 0] := by
  refine ⟨by decide, by decide⟩

/-- C1 (amended): in the assembled result the mean column is always
defined — a buffer with zero matches gets mean = 0 via `fillna(0)` — but
the count column of a zero-match buffer is left missing (NaN), since only
the mean column is filled. -/
theorem claim_zero_match_buffer_stats (buffers : List Buffer) (ms : List JoinRow) :
    (∀ r ∈ assemble buffers ms, r.mean.isSome = true) ∧
    (∀ r ∈ assemble buffers ms, (∀ m ∈ ms, m.bufferId ≠ r.id) →
      r.mean = some 0 ∧ r.count = none) := by
  constructor
  · intro r hr
    obtain ⟨b, _, q, _, hfq⟩ := mem_assemble_decompose buffers ms r hr
    rw [hfq]
    rfl
  · intro r hr hnone
    obtain ⟨b, hb, q, hq, hfq⟩ := mem_assemble_decompose buffers ms r hr
    rcases mem_mergeRow _ b q hq with hempty | ⟨s, hs, hsid, hrow⟩
    · rw [hfq, hempty]
      exact ⟨rfl, rfl⟩
    · exfalso
      have hsagg := List.mem_filter.mp hs
      have hcount : 0 < s.count := by simpa using hsagg.2
      obtain ⟨_, hstat⟩ := mem_aggStats ms s hsagg.1
      rw [hstat] at hcount
      obtain ⟨m, hm, hmid⟩ := exists_match_of_count_pos ms s.idx hcount
      apply hnone m hm
      rw [hmid, hsid, hfq, hrow]
      rfl

theorem claim_zero_match_buffer_stats_witness :
    ({ id := 0, geom := 7, mean := some 0, count := none } : BufferRow).mean = some 0 ∧
    ({ id := 0, geom := 7, mean := some 0, count := none } : BufferRow).count = none :=
  (claim_zero_match_buffer_stats [{ id := 0, geom := 7 }] []).2 _ (by decide) (by decide)

/-- C10 counterexample: pandas `count` counts non-null values, so a group
whose only match carries a null income value gets count = 0, refuting
"every group row has count ≥ 1", and line 98's `tract_count > 0` filter
removes that row, refuting "the filter removes no rows". -/
theorem claim_all_null_group_dropped :
    aggStats [{ bufferId := 0, value := none }] = [{ idx := 0, mean := none, count := 0 }] ∧
    dropZeroCount (aggStats [{ bufferId := 0, value := none }]) = [] := by
  refine ⟨by decide, by decide⟩

/-- C10 (amended): a group's count is the number of non-null attribute
values, so when every match value is non-null each group row has
count ≥ 1 and the `tract_count > 0` filter removes no rows; and for every
positive threshold, every buffer retained in the high-income result has at
least one matched polygon. -/
theorem claim_count_semantics (buffers : List Buffer) (ms : List JoinRow) (t : ℚ) :
    ((∀ m ∈ ms, m.value.isSome = true) →
      (∀ s ∈ aggStats ms, 1 ≤ s.count) ∧
      dropZeroCount (aggStats ms) = aggStats ms) ∧
    (0 < t → ∀ r ∈ filterThreshold (assemble buffers ms) t,
      ∃ m ∈ ms, m.bufferId = r.id) := by
  constructor
  · intro hval
    have hcount : ∀ s ∈ aggStats ms, 1 ≤ s.count := by
      intro s hs
      obtain ⟨hidx, hstat⟩ := mem_aggStats ms s hs
      obtain ⟨m, hm, hmid⟩ := (groupIds_mem ms s.idx).mp hidx
      rw [hstat]
      exact statFor_count_pos ms s.idx ⟨m, hm, hmid, hval m hm⟩
    refine ⟨hcount, ?_⟩
    unfold dropZeroCount
    rw [List.filter_eq_self]
    intro s hs
    simpa using hcount s hs
  · intro ht r hr
    have hmem := List.mem_filter.mp hr
    obtain ⟨b, hb, q, hq, hfq⟩ := mem_assemble_decompose buffers ms r hmem.1
    rcases mem_mergeRow _ b q hq with hempty | ⟨s, hs, hsid, hrow⟩
    · exfalso
      have hmean : r.mean = some 0 := by rw [hfq, hempty]; rfl
      have hpred := hmem.2
      unfold incomePred at hpred
      rw [hmean] at hpred
      simp only [decide_eq_true_eq] at hpred
      exact absurd (lt_of_lt_of_le ht hpred) (lt_irrefl 0)
    · have hsagg := List.mem_filter.mp hs
      have hcount : 0 < s.count := by simpa using hsagg.2
      obtain ⟨_, hstat⟩ := mem_aggStats ms s hsagg.1
      rw [hstat] at hcount
      obtain ⟨m, hm, hmid⟩ := exists_match_of_count_pos ms s.idx hcount
      refine ⟨m, hm, ?_⟩
      rw [hmid, hsid, hfq, hrow]
      rfl

theorem claim_count_semantics_witness :
    dropZeroCount (aggStats [{ bufferId := 0, value := some 50 }]) =
      aggStats [{ bufferId := 0, value := some 50 }] :=
  ((claim_count_semantics [] [{ bufferId := 0, value := some 50 }] 1).1 (by decide)).2

theorem find?_first {A : Type} (p : A → Bool) (l1 l2 : List A) (f : A)
    (h1 : ∀ g ∈ l1, p g = false) (h2 : p f = true) :
    (l1 ++ f :: l2).find? p = some f := by
  induction l1 with
  | nil => simpa using List.find?_cons_of_pos l2 h2
  | cons a l ih =>
    rw [List.cons_append, List.find?_cons_of_neg _ (by simp [h1 a (List.mem_cons_self a l)])]
    exact ih (fun g hg => h1 g (List.mem_cons_of_mem a hg))

/-- C5 counterexample: on a joined table with no candidate field and no
numeric column, the selection step does not fail — it silently picks the
hard-coded name `B19053_001M`, which is not a column of the table, and the
run then dies with a `KeyError` at the groupby of line 96, not with an
`AttributeResolutionError` at resolution time. -/
theorem claim_no_numeric_no_error :
    selectIncomeField [{ name := "GEOID", isNumeric := false },
        { name := "geometry", isNumeric := false }] = ("B19053_001M", true) ∧
    ¬ ("B19053_001M" ∈ ([{ name := "GEOID", isNumeric := false },
        { name := "geometry", isNumeric := false }] : List JoinedCol).map (fun c => c.name)) ∧
    runAggregation [{ name := "GEOID", isNumeric := false },
        { name := "geometry", isNumeric := false }] =
      Except.error (PipeErr.keyError "B19053_001M") := by
  refine ⟨by decide, by decide, rfl⟩

/-- C5 (amended): when none of the candidate names is a column and the
joined table has no numeric column, the pipeline continues with the
guessed default name `B19053_001M`; the failure surfaces only downstream
as a `KeyError` when line 96 indexes the missing column — no
`AttributeResolutionError` is raised. -/
theorem claim_missing_field_key_error (cols : List JoinedCol)
    (hcand : ∀ f ∈ possible_fields, ∀ c ∈ cols, ¬ c.name = f)
    (hnum : ∀ c ∈ cols, c.isNumeric = false) :
    selectIncomeField cols = ("B19053_001M", true) ∧
    runAggregation cols = Except.error (PipeErr.keyError "B19053_001M") := by
  have hany : ∀ f ∈ possible_fields, cols.any (fun c => c.name = f) = false := by
    intro f hf
    rw [List.any_eq_false]
    intro c hc
    simp [hcand f hf c hc]
  have hfind : possible_fields.find? (fun f => cols.any (fun c => c.name = f)) = none :=
    List.find?_eq_none.mpr (fun f hf => by simp [hany f hf])
  have hfilter : cols.filter (fun c => c.isNumeric) = [] := by
    rw [List.filter_eq_nil_iff]
    intro c hc
    simp [hnum c hc]
  have hsel : selectIncomeField cols = ("B19053_001M", true) := by
    unfold selectIncomeField
    rw [hfind, hfilter]
    rfl
  refine ⟨hsel, ?_⟩
  unfold runAggregation
  rw [hsel]
  have hmiss : cols.any (fun c => c.name = "B19053_001M") = false :=
    hany "B19053_001M" (by decide)
  simp [hmiss]

theorem claim_missing_field_key_error_witness :
    selectIncomeField [{ name := "GEOID", isNumeric := false },
        { name := "objid", isNumeric := false }] = ("B19053_001M", true) ∧
    runAggregation [{ name := "GEOID", isNumeric := false },
        { name := "objid", isNumeric := false }] =
      Except.error (PipeErr.keyError "B19053_001M") :=
  claim_missing_field_key_error _ (by decide) (by decide)

/-- C6: field selection tries the prioritized candidate list in order and
uses the first name present in the joined table (no report emitted); if no
candidate is present it falls back to the first numeric column and the
choice is surfaced through the selection report of line 94 (the boolean in
the result). -/
theorem claim_field_selection_policy (cols : List JoinedCol) :
    (∀ l1 l2 f, possible_fields = l1 ++ f :: l2 →
      (∀ g ∈ l1, ∀ c ∈ cols, ¬ c.name = g) →
      (∃ c ∈ cols, c.name = f) →
      selectIncomeField cols = (f, false)) ∧
    ((∀ f ∈ possible_fields, ∀ c ∈ cols, ¬ c.name = f) →
      ∀ n rest, (cols.filter (fun c => c.isNumeric)).map (fun c => c.name) = n :: rest →
      selectIncomeField cols = (n, true)) := by
  constructor
  · intro l1 l2 f hsplit habsent hpresent
    have hfind : possible_fields.find? (fun g => cols.any (fun c => c.name = g)) = some f := by
      rw [hsplit]
      apply find?_first
      · intro g hg
        rw [List.any_eq_false]
        intro c hc
        simp [habsent g hg c hc]
      · obtain ⟨c, hc, hname⟩ := hpresent
        rw [List.any_eq_true]
        exact ⟨c, hc, by simp [hname]⟩
    unfold selectIncomeField
    rw [hfind]
  · intro habsent n rest hnum
    have hfind : possible_fields.find? (fun g => cols.any (fun c => c.name = g)) = none := by
      apply List.find?_eq_none.mpr
      intro g hg
      rw [Bool.not_eq_true, List.any_eq_false]
      intro c hc
      simp [habsent g hg c hc]
    unfold selectIncomeField
    rw [hfind]
    simp [hnum]

theorem claim_field_selection_policy_witness :
    selectIncomeField [{ name := "GEOID", isNumeric := true },
        { name := "MedianIncome", isNumeric := true }] = ("MedianIncome", false) ∧
    selectIncomeField [{ name := "GEOID", isNumeric := false },
        { name := "pop_total", isNumeric := true }] = ("pop_total", true) := by
  constructor
  · exact (claim_field_selection_policy _).1 ["B19053_001M", "B19053_001E"]
      ["MEDIAN_INCOME", "MedInc"] "MedianIncome" rfl (by decide) (by decide)
  · exact (claim_field_selection_policy _).2 (by decide) "pop_total" [] (by decide)

end DollarGeneral
